import Mathlib

/-!
Shallow embedding of the WhatsApp flight-ticket booking webhook
(`src/main.py` of thakur7985/whatsapp-ticket-booking) together with the
helper `check_payment_status`, `is_valid_departure_date` and
`generate_ticket_pdf` call sites, and proofs of the specification claims
about the conversation state machine.

Modelling conventions:
* timestamps (`datetime.utcnow()`) are integers measured in seconds (all
  thresholds of the handler — 2 s debounce, 5 s default, 1 h expiry — are
  whole seconds);
* calendar dates are proleptic-Gregorian day numbers (`Int`), produced
  from `YYYY-MM-DD` strings by an embedding of `datetime.strptime` and
  of the civil-calendar/day-number conversion;
* the external collaborators (Razorpay, Amadeus, MySQL, uuid, clock) are
  an `Env` oracle record; database INSERTs are collected as effect lists;
* an uncaught Python exception inside the step handler is modelled by the
  `except` branch of the webhook: the session is popped (result session
  `none`) and the generic error reply is returned.
-/

namespace FlightBot

/-! ### Embedding of the Python string primitives used by the handler -/

/-- The ASCII whitespace stripped by `str.strip()`. -/
def isPySpace (c : Char) : Bool :=
  c = ' ' || c = '\t' || c = '\n' || c = '\r' || c = '\x0b' || c = '\x0c'

/-- Embeds `str.strip()` (ASCII whitespace). -/
def pyStrip (s : String) : String :=
  ((s.toList.dropWhile isPySpace).reverse.dropWhile isPySpace).reverse.asString

/-- Embeds `str.lower()` (ASCII). -/
def pyLower (s : String) : String := (s.toList.map Char.toLower).asString

/-- Embeds `str.upper()` (ASCII). -/
def pyUpper (s : String) : String := (s.toList.map Char.toUpper).asString

/-- Embeds `str.capitalize()` (ASCII): first character upper-cased, the
rest lower-cased. -/
def pyCapitalize (s : String) : String :=
  match s.toList with
  | [] => ""
  | c :: cs => (c.toUpper :: cs.map Char.toLower).asString

/-- One step of `str.title()`: a letter is upper-cased when the previous
character is not a letter, lower-cased otherwise. -/
def pyTitleAux : Bool → List Char → List Char
  | _, [] => []
  | prevAlpha, c :: cs =>
    let c2 := if c.isAlpha then (if prevAlpha then c.toLower else c.toUpper) else c
    c2 :: pyTitleAux c.isAlpha cs

/-- Embeds `str.title()` (ASCII). -/
def pyTitle (s : String) : String := (pyTitleAux false s.toList).asString

/-- Embeds `str.isdigit()` (ASCII): non-empty and all characters digits. -/
def pyIsDigit (s : String) : Bool := !s.toList.isEmpty && s.toList.all Char.isDigit

/-- Value of a non-empty decimal digit string. -/
def digitsToNat (l : List Char) : Nat := l.foldl (fun n c => n * 10 + (c.toNat - 48)) 0

/-- Embeds `int(s)` on an already stripped string: an optional sign
followed by at least one decimal digit; anything else raises
`ValueError`, modelled as `none`. -/
def pyInt (s : String) : Option Int :=
  match s.toList with
  | [] => none
  | c :: cs =>
    if c = '+' then
      if cs ≠ [] ∧ cs.all Char.isDigit then some (digitsToNat cs : Nat) else none
    else if c = '-' then
      if cs ≠ [] ∧ cs.all Char.isDigit then some (-(digitsToNat cs : Nat)) else none
    else
      if (c :: cs).all Char.isDigit then some (digitsToNat (c :: cs) : Nat) else none

/-! ### Embedding of calendar dates

A date is its day number in the proleptic Gregorian calendar (the
conversion used by `datetime.date`); `daysFromCivil`/`civilFromDays` are
the standard civil-calendar conversions, exercised here only on the
non-negative intermediate values produced by years 1..9999. -/

/-- Leap-year predicate of the Gregorian calendar. -/
def isLeapYear (y : Int) : Bool := (y % 4 == 0 && y % 100 != 0) || y % 400 == 0

/-- Number of days of month `m` in year `y`. -/
def daysInMonth (y m : Int) : Int :=
  if m = 2 then (if isLeapYear y then 29 else 28)
  else if m = 4 ∨ m = 6 ∨ m = 9 ∨ m = 11 then 30
  else 31

/-- Day number of the civil date `y-m-d` (epoch 1970-01-01 = 0). -/
def daysFromCivil (y m d : Int) : Int :=
  let y1 := if m ≤ 2 then y - 1 else y
  let era := (if 0 ≤ y1 then y1 else y1 - 399) / 400
  let yoe := y1 - era * 400
  let mp := (m + 9) % 12
  let doy := (153 * mp + 2) / 5 + d - 1
  let doe := yoe * 365 + yoe / 4 - yoe / 100 + doy
  era * 146097 + doe - 719468

/-- Civil date `(y, m, d)` of a day number. -/
def civilFromDays (z : Int) : Int × Int × Int :=
  let z1 := z + 719468
  let era := (if 0 ≤ z1 then z1 else z1 - 146096) / 146097
  let doe := z1 - era * 146097
  let yoe := (doe - doe / 1460 + doe / 36524 - doe / 146096) / 365
  let y := yoe + era * 400
  let doy := doe - (365 * yoe + yoe / 4 - yoe / 100)
  let mp := (5 * doy + 2) / 153
  let d := doy - (153 * mp + 2) / 5 + 1
  let m := mp + (if mp < 10 then 3 else -9)
  (if m ≤ 2 then y + 1 else y, m, d)

/-- Zero-padded decimal rendering of a non-negative number. -/
def padNum (width : Nat) (n : Int) : String :=
  let s := toString n.toNat
  (List.replicate (width - s.length) '0').asString ++ s

/-- Embeds `date.strftime` with the pattern `%Y-%m-%d`: the year
zero-padded to 4 digits, month and day to 2. -/
def fmtDate (z : Int) : String :=
  let c := civilFromDays z
  padNum 4 c.1 ++ "-" ++ padNum 2 c.2.1 ++ "-" ++ padNum 2 c.2.2

/-- Splits a character list at every dash (the separators of the
`%Y-%m-%d` pattern). -/
def splitDashes : List Char → List Char → List (List Char)
  | [], acc => [acc.reverse]
  | c :: cs, acc =>
    if c = '-' then acc.reverse :: splitDashes cs []
    else splitDashes cs (c :: acc)

/-- Embeds `datetime.strptime(s, "%Y-%m-%d").date()`: three dash-separated
all-digit groups (year up to 4 digits, month and day up to 2), a year in
1..9999, a month in 1..12 and a day valid for that month; the result is
the day number.  Any other input raises `ValueError`, modelled as
`none`. -/
def parseDate (s : String) : Option Int :=
  match splitDashes s.toList [] with
  | [yl, ml, dl] =>
    if yl ≠ [] ∧ yl.all Char.isDigit ∧ yl.length ≤ 4 ∧
       ml ≠ [] ∧ ml.all Char.isDigit ∧ ml.length ≤ 2 ∧
       dl ≠ [] ∧ dl.all Char.isDigit ∧ dl.length ≤ 2 then
      let y : Int := digitsToNat yl
      let m : Int := digitsToNat ml
      let d : Int := digitsToNat dl
      if 1 ≤ y ∧ y ≤ 9999 ∧ 1 ≤ m ∧ m ≤ 12 ∧ 1 ≤ d ∧ d ≤ daysInMonth y m then
        some (daysFromCivil y m d)
      else none
    else none
  | _ => none

/-- Embeds `is_valid_departure_date` (`src/main.py:83`): the string must
parse as a date `d` with `today <= d <= today + timedelta(days=10)`. -/
def is_valid_departure_date (s : String) (today : Int) : Bool :=
  match parseDate s with
  | some d => decide (today ≤ d) && decide (d ≤ today + 10)
  | none => false

/-! ### The session data model (`user_sessions` entries of `src/main.py`) -/

/-- The closed set of values the handler ever assigns to
`session["step"]`. -/
inductive Step where
  | ask_origin
  | ask_destination
  | ask_date
  | select_flight
  | ask_name
  | ask_age
  | ask_gender
  | ask_seat
  | add_another_passenger
  | confirm_booking
  | awaiting_payment
  | booking_confirmed
deriving DecidableEq, Repr

/-- The `current_passenger` dict, filled field by field; a `none` field is
an absent key. -/
structure CurrentPassenger where
  name : Option String := none
  age : Option Nat := none
  gender : Option String := none
  seat : Option String := none
deriving DecidableEq, Repr

/-- One flight offer, holding the fields the handler reads from the raw
Amadeus offer: `itineraries[0].segments[0].departure/arrival`,
`validatingAirlineCodes[0]` and `price.total`. -/
structure Flight where
  depIata : String
  depAt : String
  arrIata : String
  arrAt : String
  airline : String
  price : String
deriving DecidableEq, Repr

/-- One per-user session dict.  `razorpay_order_id = none` models the key
being absent (it is only set by the confirm step). -/
structure Session where
  step : Step
  origin : String
  destination : String
  date : String
  flights : List Flight
  selected_flight : Option Flight
  passengers : List CurrentPassenger
  current_passenger : CurrentPassenger
  payment_confirmed : Bool
  razorpay_order_id : Option String
  last_interaction : Int
deriving DecidableEq, Repr

/-- The fresh session dict built by the greeting and session-start
branches (`src/main.py:259` and `src/main.py:278`). -/
def freshSession (now : Int) : Session where
  step := .ask_origin
  origin := ""
  destination := ""
  date := ""
  flights := []
  selected_flight := none
  passengers := []
  current_passenger := {}
  payment_confirmed := false
  razorpay_order_id := none
  last_interaction := now

/-! ### The external collaborators as an oracle record -/

/-- A Razorpay payment-link response; a `none` field models the key being
absent from the response dict. -/
structure PaymentLink where
  linkId : Option String
  shortUrl : Option String
deriving DecidableEq, Repr

/-- Oracle for everything outside the handler: the clock, Amadeus lookups,
the Razorpay client and the id generators.  `createPaymentLink = none`
models `payment_link.create` raising; `razorpayPayments oid = none`
models `order.payments` raising, otherwise it is the list of payment
statuses of that order. -/
structure Env where
  now : Int
  today : Int
  getIata : String → Option String
  searchOffers : String → String → String → List Flight
  razorpayAvailable : Bool
  createPaymentLink : Option PaymentLink
  razorpayPayments : String → Option (List String)
  bookingStamp : String
  freshPid : String
  freshPsrid : Nat → String

/-- Embeds `check_payment_status` (`src/main.py:201`): false when the
client is missing, false when the API call raises, otherwise true iff
some payment of the order has `captured` status. -/
def check_payment_status (env : Env) (orderId : String) : Bool :=
  if !env.razorpayAvailable then false
  else
    match env.razorpayPayments orderId with
    | none => false
    | some statuses => statuses.any (· == "captured")

/-- A row INSERTed into `flight_bookings`. -/
structure BookingRow where
  pid : String
  whatsappId : String
  origin : String
  destination : String
  departureTime : String
  arrivalTime : String
  price : String
  airlineName : String
  totalPassengers : Nat
  bookingReference : String
  razorpayOrderId : String
deriving DecidableEq, Repr

/-- A row INSERTed into `passengers`; `dob` is the `(year, month, day)`
computed by `calculate_dob`. -/
structure PassengerRow where
  psrid : String
  pid : String
  pName : String
  dob : Int × Int × Int
  gender : String
  seat : String
deriving DecidableEq, Repr

/-- Embeds `calculate_dob` plus the row construction of the passenger
INSERT loop (`src/main.py:483`): `none` when a passenger dict misses a
field (`KeyError`) or `datetime(birth_year, month, day)` raises. -/
def rowOfPassenger (env : Env) (pid psrid : String) (p : CurrentPassenger) :
    Option PassengerRow :=
  match p.name, p.age, p.gender, p.seat with
  | some nm, some a, some g, some st =>
    let c := civilFromDays env.today
    let by1 := c.1 - (a : Int)
    if 1 ≤ by1 ∧ by1 ≤ 9999 ∧ c.2.2 ≤ daysInMonth by1 c.2.1 then
      some { psrid := psrid, pid := pid, pName := nm, dob := (by1, c.2.1, c.2.2),
             gender := g, seat := st }
    else none
  | _, _, _, _ => none

/-- The passenger INSERT loop: rows are inserted one by one; an exception
midway leaves the earlier inserts committed (`.error` carries them). -/
def buildPassengerRows (env : Env) (pid : String) :
    List CurrentPassenger → Nat → List PassengerRow →
    Except (List PassengerRow) (List PassengerRow)
  | [], _, acc => .ok acc.reverse
  | p :: rest, i, acc =>
    match rowOfPassenger env pid (env.freshPsrid i) p with
    | some row => buildPassengerRows env pid rest (i + 1) (row :: acc)
    | none => .error acc.reverse

/-! ### The reply strings of the handler, verbatim from `src/main.py` -/

def waitNotice : String := "Please wait a moment before sending another message."

def welcomeMsg : String :=
  "Welcome to ✈️ FlightBot!\n\nPlease enter the *departure city name* (e.g., New Delhi):"

def sessionStartedMsg : String :=
  "Session started.\n\nPlease enter the *departure city name* (e.g., New Delhi):"

def askDestinationMsg : String :=
  "Great! Now enter the *destination city name* (e.g., Mumbai):"

def askDateMsg : String :=
  "Awesome! Please enter the *departure date* in YYYY-MM-DD format:"

/-- The enumerated valid dates of the invalid-date reply
(`src/main.py:315`): one line per `i in range(11)`. -/
def allowedDateLines (today : Int) : List String :=
  (List.range 11).map fun i : Nat => "✅ " ++ fmtDate (today + (i : Int))

def invalidDateMsg (today : Int) : String :=
  "❌ Invalid date.\n\nYou can only book flights from *today* to *10 days from today*.\nValid dates:\n"
    ++ String.intercalate "\n" (allowedDateLines today)

def invalidCitiesMsg : String := "❌ Invalid city names. Please check and try again."

def noFlightsMsg : String := "No flights found. Try a different date or route."

def flightLine (i : Nat) (f : Flight) : String :=
  s!"{i + 1}. {f.depIata} ({f.depAt}) ➡️ {f.arrIata} ({f.arrAt})\n   Airline: {f.airline}, Price: ₹{f.price}\n\n"

def flightsReply (fs : List Flight) : String :=
  "✈️ Available Flights:\n\n"
    ++ String.join (fs.enum.map fun p => flightLine p.1 p.2)
    ++ "Please reply with the flight number (1–5) to confirm your choice."

def askName1Msg : String := "Please enter the *name* of passenger 1:"

def invalidChoiceMsg : String := "Invalid choice. Please reply with a number between 1 and 5."

def askAgeMsg : String := "Enter their *age*:"

def invalidAgeMsg : String := "Please enter a valid age."

def askGenderMsg : String := "Enter their *gender* (Male/Female/Other):"

def invalidGenderMsg : String := "Please enter a valid gender."

def askSeatMsg : String := "Enter their *preferred seat* (e.g., 12A):"

def passengerAddedMsg (n : Nat) : String :=
  s!"Passenger {n} added ✅\nDo you want to add another passenger? (yes/no)"

def maxPassengersMsg : String :=
  "Max 6 passengers reached. Ready to confirm your booking. Reply *confirm* to proceed."

def askNameNextMsg (n : Nat) : String :=
  s!"Please enter the *name* of passenger {n}:"

def detailsDoneMsg : String :=
  "Booking details completed. Reply *confirm* to proceed to payment."

def yesNoMsg : String := "Please reply with *yes* or *no*."

def paymentUnavailableMsg : String := "Payment system unavailable. Please try again later."

def linkFailedMsg : String := "Failed to create payment link. Please try again later."

def bookingCreatedMsg (ref : String) (f : Flight) (n : Nat) (url : String) : String :=
  s!"🎉 Booking Created!\n\n📌 Ref: *{ref}*\n{f.depIata} → {f.arrIata}\nDeparture: {f.depAt}\nArrival: {f.arrAt}\nAirline: {f.airline}\nTotal Passengers: {n}\n\n💰 Price: ₹{f.price}\nPlease complete your payment using the following link:\n{url}\n\nAfter payment, reply with *paid* to confirm your booking."

def confirmPromptMsg : String := "Please reply with *confirm* to proceed to payment."

def paymentInfoMissingMsg : String := "Payment info missing. Please contact support."

def notDetectedMsg : String :=
  "⚠️ Payment not detected yet. Please make sure you completed the payment.\nIf you have paid, wait a moment and reply *paid* again."

def waitingPaymentMsg : String :=
  "Waiting for payment confirmation.\nPlease reply with *paid* once you complete the payment."

def alreadyConfirmedMsg : String :=
  "Your booking is already confirmed.\nFor new booking, reply *hi* or *start*."

def errorMsg : String :=
  "An error occurred. Please try again later. Reply *hi* to start again."

def greetingKeywords : List String := ["Hi", "Hello", "Start"]

/-! ### The webhook handler -/

/-- Result of one step dispatch: the reply, the session left in
`user_sessions` (`none` = popped by the `except` branch after an uncaught
exception) and the rows INSERTed into the two tables. -/
structure StepOut where
  reply : String
  sess : Option Session
  bookings : List BookingRow
  passRows : List PassengerRow
deriving Repr

/-- Embeds the `confirm_booking` branch body once the keyword matched
(`src/main.py:410`).  Reading the selected flight out of an empty dict
raises (session popped); `booking_reference` is computed, then the
Razorpay client check, then the guarded `payment_link.create` call
(whose argument evaluation already raises on an empty passenger list or
a passenger without a name), then the check for the `id` and `short_url`
response fields — all before any database INSERT. -/
def confirmBookingBody (env : Env) (userId : String) (s : Session) : StepOut :=
  match s.selected_flight with
  | none => ⟨errorMsg, none, [], []⟩
  | some f =>
    let bookingRef := "FL-" ++ env.bookingStamp
    if !env.razorpayAvailable then ⟨paymentUnavailableMsg, some s, [], []⟩
    else
      let linkAttempt : Option PaymentLink :=
        match s.passengers with
        | [] => none
        | p0 :: _ => match p0.name with
          | none => none
          | some _ => env.createPaymentLink
      match linkAttempt with
      | none => ⟨linkFailedMsg, some s, [], []⟩
      | some pl =>
        match pl.linkId, pl.shortUrl with
        | some lid, some url =>
          let row : BookingRow :=
            { pid := env.freshPid, whatsappId := userId, origin := f.depIata,
              destination := f.arrIata, departureTime := f.depAt,
              arrivalTime := f.arrAt, price := f.price, airlineName := f.airline,
              totalPassengers := s.passengers.length, bookingReference := bookingRef,
              razorpayOrderId := lid }
          match buildPassengerRows env env.freshPid s.passengers 0 [] with
          | .error partialRows => ⟨errorMsg, none, [row], partialRows⟩
          | .ok rows =>
            ⟨bookingCreatedMsg bookingRef f s.passengers.length url,
             some { s with step := .awaiting_payment, razorpay_order_id := some lid },
             [row], rows⟩
        | _, _ => ⟨linkFailedMsg, some s, [], []⟩

/-- Embeds the per-step dispatch of `whatsapp_webhook`
(`src/main.py:298`..`src/main.py:565`) on a session whose
`last_interaction` was already refreshed.  `input` is the title-cased
stripped body, `raw` the stripped body. -/
def dispatch (env : Env) (userId : String) (input raw : String) (s : Session) : StepOut :=
  match s.step with
  | .ask_origin =>
    ⟨askDestinationMsg, some { s with origin := input, step := .ask_destination }, [], []⟩
  | .ask_destination =>
    ⟨askDateMsg, some { s with destination := input, step := .ask_date }, [], []⟩
  | .ask_date =>
    if !is_valid_departure_date input env.today then
      ⟨invalidDateMsg env.today, some s, [], []⟩
    else
      let s1 := { s with date := input }
      match env.getIata s1.origin, env.getIata s1.destination with
      | some o, some d =>
        let offers := env.searchOffers o d s1.date
        if offers.isEmpty then ⟨noFlightsMsg, some s1, [], []⟩
        else
          let s2 := { s1 with flights := offers.take 5, step := .select_flight }
          ⟨flightsReply s2.flights, some s2, [], []⟩
      | _, _ => ⟨invalidCitiesMsg, some s1, [], []⟩
  | .select_flight =>
    match pyInt input with
    | some n =>
      let choice := n - 1
      if 0 ≤ choice ∧ choice < (s.flights.length : Int) then
        ⟨askName1Msg,
         some { s with selected_flight := s.flights.get? choice.toNat, step := .ask_name },
         [], []⟩
      else ⟨invalidChoiceMsg, some s, [], []⟩
    | none => ⟨invalidChoiceMsg, some s, [], []⟩
  | .ask_name =>
    ⟨askAgeMsg,
     some { s with current_passenger := { name := some (pyTitle raw) }, step := .ask_age },
     [], []⟩
  | .ask_age =>
    if pyIsDigit input && decide (0 < digitsToNat input.toList) then
      ⟨askGenderMsg,
       some { s with
                current_passenger := { s.current_passenger with age := some (digitsToNat input.toList) },
                step := .ask_gender },
       [], []⟩
    else ⟨invalidAgeMsg, some s, [], []⟩
  | .ask_gender =>
    let g := pyCapitalize raw
    if g = "Male" ∨ g = "Female" ∨ g = "Other" then
      ⟨askSeatMsg,
       some { s with current_passenger := { s.current_passenger with gender := some g },
                     step := .ask_seat },
       [], []⟩
    else ⟨invalidGenderMsg, some s, [], []⟩
  | .ask_seat =>
    let cur := { s.current_passenger with seat := some (pyUpper input) }
    let ps := s.passengers ++ [cur]
    if ps.length < 6 then
      ⟨passengerAddedMsg ps.length,
       some { s with current_passenger := cur, passengers := ps,
                     step := .add_another_passenger },
       [], []⟩
    else
      ⟨maxPassengersMsg,
       some { s with current_passenger := cur, passengers := ps, step := .confirm_booking },
       [], []⟩
  | .add_another_passenger =>
    if pyLower input = "yes" then
      ⟨askNameNextMsg (s.passengers.length + 1), some { s with step := .ask_name }, [], []⟩
    else if pyLower input = "no" then
      ⟨detailsDoneMsg, some { s with step := .confirm_booking }, [], []⟩
    else ⟨yesNoMsg, some s, [], []⟩
  | .confirm_booking =>
    if pyLower input = "confirm" then confirmBookingBody env userId s
    else ⟨confirmPromptMsg, some s, [], []⟩
  | .awaiting_payment =>
    if pyLower input = "paid" ∨ pyLower input = "payment done" ∨ pyLower input = "done" then
      match s.razorpay_order_id with
      | none => ⟨paymentInfoMissingMsg, some s, [], []⟩
      | some oid =>
        if check_payment_status env oid then
          -- The handler then sets `payment_confirmed`, step
          -- `booking_confirmed`, and evaluates
          -- `generate_ticket_pdf(booking_reference, ...)`; the local
          -- `booking_reference` is only assigned in the
          -- `confirm_booking` branch, so this raises
          -- `UnboundLocalError` and the `except` branch pops the
          -- session and returns the generic error reply.
          ⟨errorMsg, none, [], []⟩
        else ⟨notDetectedMsg, some s, [], []⟩
    else ⟨waitingPaymentMsg, some s, [], []⟩
  | .booking_confirmed => ⟨alreadyConfirmedMsg, some s, [], []⟩

/-- Result of one webhook call: the reply, the session map entry and the
`user_last_interaction` entry for this user after the call, and the rows
INSERTed during the call. -/
structure WebhookResult where
  reply : String
  session : Option Session
  lastSeen : Option Int
  bookings : List BookingRow
  passRows : List PassengerRow
deriving Repr

/-- The part of `whatsapp_webhook` after the debounce check
(`src/main.py:254` onward): record the interaction time, handle the
greeting override, then the missing-or-expired session reset, then
refresh the session timestamp and dispatch on the step. -/
def processMessage (env : Env) (userId : String) (sess : Option Session)
    (body : String) : WebhookResult :=
  let raw := pyStrip body
  let input := pyTitle raw
  if input ∈ greetingKeywords then
    ⟨welcomeMsg, some (freshSession env.now), some env.now, [], []⟩
  else
    match sess with
    | none => ⟨sessionStartedMsg, some (freshSession env.now), some env.now, [], []⟩
    | some s =>
      if env.now - s.last_interaction > 3600 then
        ⟨sessionStartedMsg, some (freshSession env.now), some env.now, [], []⟩
      else
        let out := dispatch env userId input raw { s with last_interaction := env.now }
        ⟨out.reply, out.sess, some env.now, out.bookings, out.passRows⟩

/-- Embeds `whatsapp_webhook` (`src/main.py:240`) for one user:
`lastSeen` is this user's `user_last_interaction` entry, `sess` the
`user_sessions` entry; absent entries are `none`.  The debounce default
is `current_time - timedelta(seconds=5)` and the threshold 2 seconds. -/
def webhook (env : Env) (userId : String) (lastSeen : Option Int) (sess : Option Session)
    (body : String) : WebhookResult :=
  if env.now - lastSeen.getD (env.now - 5) < 2 then
    ⟨waitNotice, sess, lastSeen, [], []⟩
  else processMessage env userId sess body

/-! ### Session invariant and reachability -/

/-- Invariant of a live session: at most 6 passengers; none before a
flight was selected; at most 5 while passenger details are being
collected (so the `ask_seat` append can reach at most 6). -/
def sessionInv (s : Session) : Prop :=
  s.passengers.length ≤ 6 ∧
  ((s.step = .ask_origin ∨ s.step = .ask_destination ∨ s.step = .ask_date ∨
      s.step = .select_flight) → s.passengers.length = 0) ∧
  ((s.step = .ask_name ∨ s.step = .ask_age ∨ s.step = .ask_gender ∨
      s.step = .ask_seat ∨ s.step = .add_another_passenger) → s.passengers.length ≤ 5)

/-- Invariant of a `user_sessions` entry (no entry is fine). -/
def optInv : Option Session → Prop
  | none => True
  | some s => sessionInv s

/-- The `user_sessions` entries reachable for one user by any sequence of
inbound messages, starting from no entry, under arbitrary oracle
behaviour. -/
inductive Reachable : Option Session → Prop
  | init : Reachable none
  | next (env : Env) (userId : String) (lastSeen : Option Int) (body : String)
      {os : Option Session} :
      Reachable os → Reachable (webhook env userId lastSeen os body).session

/-! ### Concrete fixtures for witnesses and counterexamples -/

/-- A concrete oracle: clock at 100 s, today 2026-10-12, every external
call failing or empty. -/
def envA : Env where
  now := 100
  today := daysFromCivil 2026 10 12
  getIata := fun _ => none
  searchOffers := fun _ _ _ => []
  razorpayAvailable := false
  createPaymentLink := none
  razorpayPayments := fun _ => none
  bookingStamp := "20261012010203"
  freshPid := "pid-1"
  freshPsrid := fun i => "psr-" ++ toString i

/-- Oracle `envA` with a Razorpay order whose payment is captured. -/
def envPaid : Env :=
  { envA with razorpayAvailable := true, razorpayPayments := fun _ => some ["captured"] }

/-- Oracle `envA` with a Razorpay order whose payments are all failed. -/
def envFail : Env :=
  { envA with razorpayAvailable := true, razorpayPayments := fun _ => some ["failed"] }

def fDemo : Flight where
  depIata := "DEL"
  depAt := "2026-10-15T10:00:00"
  arrIata := "BOM"
  arrAt := "2026-10-15T12:05:00"
  airline := "AI"
  price := "6500.00"

def fDemo2 : Flight := { fDemo with airline := "6E", price := "5400.00" }

def fDemo3 : Flight := { fDemo with airline := "UK", price := "7100.00" }

def pDemo : CurrentPassenger where
  name := some "Asha Rao"
  age := some 30
  gender := some "Female"
  seat := some "12A"

/-- A session waiting for payment for a fully assembled booking. -/
def sFull : Session where
  step := .awaiting_payment
  origin := "New Delhi"
  destination := "Mumbai"
  date := "2026-10-15"
  flights := [fDemo, fDemo2, fDemo3]
  selected_flight := some fDemo
  passengers := [pDemo]
  current_passenger := pDemo
  payment_confirmed := false
  razorpay_order_id := some "order_1"
  last_interaction := 99

/-- A session presented with three flight offers. -/
def sFlights : Session :=
  { freshSession 99 with
      step := .select_flight
      origin := "New Delhi"
      destination := "Mumbai"
      date := "2026-10-15"
      flights := [fDemo, fDemo2, fDemo3] }

/-- A session at the booking-confirmation step. -/
def sConfirm : Session :=
  { sFull with step := .confirm_booking, razorpay_order_id := none }

/-- A session at the date question. -/
def sDate : Session :=
  { freshSession 99 with step := .ask_date, origin := "New Delhi", destination := "Mumbai" }

/-- A session about to append its sixth passenger. -/
def sFive : Session :=
  { sFull with
      step := .ask_seat
      passengers := [pDemo, pDemo, pDemo, pDemo, pDemo]
      current_passenger := { pDemo with seat := none } }

/-! ### Unfolding lemmas for the handler -/

theorem webhook_debounced (env : Env) (userId : String) (lastSeen : Option Int)
    (sess : Option Session) (body : String)
    (h : env.now - lastSeen.getD (env.now - 5) < 2) :
    webhook env userId lastSeen sess body =
      ⟨waitNotice, sess, lastSeen, [], []⟩ := by
  unfold webhook
  rw [if_pos h]

theorem webhook_not_debounced (env : Env) (userId : String) (lastSeen : Option Int)
    (sess : Option Session) (body : String)
    (h : ¬ env.now - lastSeen.getD (env.now - 5) < 2) :
    webhook env userId lastSeen sess body = processMessage env userId sess body := by
  unfold webhook
  rw [if_neg h]

theorem processMessage_greeting (env : Env) (userId : String) (sess : Option Session)
    (body : String) (h : pyTitle (pyStrip body) ∈ greetingKeywords) :
    processMessage env userId sess body =
      ⟨welcomeMsg, some (freshSession env.now), some env.now, [], []⟩ := by
  unfold processMessage
  rw [if_pos h]

theorem processMessage_dispatch (env : Env) (userId : String) (s : Session) (body : String)
    (h2 : pyTitle (pyStrip body) ∉ greetingKeywords)
    (h3 : ¬ env.now - s.last_interaction > 3600) :
    processMessage env userId (some s) body =
      { reply := (dispatch env userId (pyTitle (pyStrip body)) (pyStrip body)
                    { s with last_interaction := env.now }).reply,
        session := (dispatch env userId (pyTitle (pyStrip body)) (pyStrip body)
                    { s with last_interaction := env.now }).sess,
        lastSeen := some env.now,
        bookings := (dispatch env userId (pyTitle (pyStrip body)) (pyStrip body)
                    { s with last_interaction := env.now }).bookings,
        passRows := (dispatch env userId (pyTitle (pyStrip body)) (pyStrip body)
                    { s with last_interaction := env.now }).passRows } := by
  unfold processMessage
  rw [if_neg h2]
  dsimp only
  rw [if_neg h3]

theorem webhook_run (env : Env) (userId : String) (lastSeen : Option Int) (s : Session)
    (body : String)
    (h1 : ¬ env.now - lastSeen.getD (env.now - 5) < 2)
    (h2 : pyTitle (pyStrip body) ∉ greetingKeywords)
    (h3 : ¬ env.now - s.last_interaction > 3600) :
    webhook env userId lastSeen (some s) body =
      { reply := (dispatch env userId (pyTitle (pyStrip body)) (pyStrip body)
                    { s with last_interaction := env.now }).reply,
        session := (dispatch env userId (pyTitle (pyStrip body)) (pyStrip body)
                    { s with last_interaction := env.now }).sess,
        lastSeen := some env.now,
        bookings := (dispatch env userId (pyTitle (pyStrip body)) (pyStrip body)
                    { s with last_interaction := env.now }).bookings,
        passRows := (dispatch env userId (pyTitle (pyStrip body)) (pyStrip body)
                    { s with last_interaction := env.now }).passRows } := by
  rw [webhook_not_debounced env userId lastSeen (some s) body h1]
  exact processMessage_dispatch env userId s body h2 h3

theorem processMessage_lastSeen (env : Env) (userId : String) (sess : Option Session)
    (body : String) :
    (processMessage env userId sess body).lastSeen = some env.now := by
  unfold processMessage
  dsimp only
  split
  · rfl
  · cases sess with
    | none => rfl
    | some s =>
      dsimp only
      split
      · rfl
      · rfl

/-! ### Dispatch equations, one per step value -/

theorem dispatch_ask_origin (env : Env) (uid input raw : String) (s : Session)
    (h : s.step = .ask_origin) :
    dispatch env uid input raw s =
      ⟨askDestinationMsg, some { s with origin := input, step := .ask_destination }, [], []⟩ := by
  unfold dispatch
  rw [h]

theorem dispatch_ask_destination (env : Env) (uid input raw : String) (s : Session)
    (h : s.step = .ask_destination) :
    dispatch env uid input raw s =
      ⟨askDateMsg, some { s with destination := input, step := .ask_date }, [], []⟩ := by
  unfold dispatch
  rw [h]

theorem dispatch_ask_date (env : Env) (uid input raw : String) (s : Session)
    (h : s.step = .ask_date) :
    dispatch env uid input raw s =
      (if !is_valid_departure_date input env.today then
        ⟨invalidDateMsg env.today, some s, [], []⟩
      else
        let s1 := { s with date := input }
        match env.getIata s1.origin, env.getIata s1.destination with
        | some o, some d =>
          let offers := env.searchOffers o d s1.date
          if offers.isEmpty then ⟨noFlightsMsg, some s1, [], []⟩
          else
            let s2 := { s1 with flights := offers.take 5, step := .select_flight }
            ⟨flightsReply s2.flights, some s2, [], []⟩
        | _, _ => ⟨invalidCitiesMsg, some s1, [], []⟩) := by
  unfold dispatch
  rw [h]

theorem dispatch_select_flight (env : Env) (uid input raw : String) (s : Session)
    (h : s.step = .select_flight) :
    dispatch env uid input raw s =
      (match pyInt input with
      | some n =>
        let choice := n - 1
        if 0 ≤ choice ∧ choice < (s.flights.length : Int) then
          ⟨askName1Msg,
           some { s with selected_flight := s.flights.get? choice.toNat, step := .ask_name },
           [], []⟩
        else ⟨invalidChoiceMsg, some s, [], []⟩
      | none => ⟨invalidChoiceMsg, some s, [], []⟩) := by
  unfold dispatch
  rw [h]

theorem dispatch_ask_name (env : Env) (uid input raw : String) (s : Session)
    (h : s.step = .ask_name) :
    dispatch env uid input raw s =
      ⟨askAgeMsg,
       some { s with current_passenger := { name := some (pyTitle raw) }, step := .ask_age },
       [], []⟩ := by
  unfold dispatch
  rw [h]

theorem dispatch_ask_age (env : Env) (uid input raw : String) (s : Session)
    (h : s.step = .ask_age) :
    dispatch env uid input raw s =
      (if pyIsDigit input && decide (0 < digitsToNat input.toList) then
        ⟨askGenderMsg,
         some { s with
                  current_passenger :=
                    { s.current_passenger with age := some (digitsToNat input.toList) },
                  step := .ask_gender },
         [], []⟩
      else ⟨invalidAgeMsg, some s, [], []⟩) := by
  unfold dispatch
  rw [h]

theorem dispatch_ask_gender (env : Env) (uid input raw : String) (s : Session)
    (h : s.step = .ask_gender) :
    dispatch env uid input raw s =
      (if pyCapitalize raw = "Male" ∨ pyCapitalize raw = "Female" ∨ pyCapitalize raw = "Other" then
        ⟨askSeatMsg,
         some { s with current_passenger := { s.current_passenger with gender := some (pyCapitalize raw) },
                       step := .ask_seat },
         [], []⟩
      else ⟨invalidGenderMsg, some s, [], []⟩) := by
  unfold dispatch
  rw [h]

theorem dispatch_ask_seat (env : Env) (uid input raw : String) (s : Session)
    (h : s.step = .ask_seat) :
    dispatch env uid input raw s =
      (let cur := { s.current_passenger with seat := some (pyUpper input) }
       let ps := s.passengers ++ [cur]
       if ps.length < 6 then
        ⟨passengerAddedMsg ps.length,
         some { s with current_passenger := cur, passengers := ps,
                       step := .add_another_passenger },
         [], []⟩
      else
        ⟨maxPassengersMsg,
         some { s with current_passenger := cur, passengers := ps, step := .confirm_booking },
         [], []⟩) := by
  unfold dispatch
  rw [h]

theorem dispatch_add_another (env : Env) (uid input raw : String) (s : Session)
    (h : s.step = .add_another_passenger) :
    dispatch env uid input raw s =
      (if pyLower input = "yes" then
        ⟨askNameNextMsg (s.passengers.length + 1), some { s with step := .ask_name }, [], []⟩
      else if pyLower input = "no" then
        ⟨detailsDoneMsg, some { s with step := .confirm_booking }, [], []⟩
      else ⟨yesNoMsg, some s, [], []⟩) := by
  unfold dispatch
  rw [h]

theorem dispatch_confirm_booking (env : Env) (uid input raw : String) (s : Session)
    (h : s.step = .confirm_booking) :
    dispatch env uid input raw s =
      (if pyLower input = "confirm" then confirmBookingBody env uid s
      else ⟨confirmPromptMsg, some s, [], []⟩) := by
  unfold dispatch
  rw [h]

theorem dispatch_awaiting_payment (env : Env) (uid input raw : String) (s : Session)
    (h : s.step = .awaiting_payment) :
    dispatch env uid input raw s =
      (if pyLower input = "paid" ∨ pyLower input = "payment done" ∨ pyLower input = "done" then
        match s.razorpay_order_id with
        | none => ⟨paymentInfoMissingMsg, some s, [], []⟩
        | some oid =>
          if check_payment_status env oid then ⟨errorMsg, none, [], []⟩
          else ⟨notDetectedMsg, some s, [], []⟩
      else ⟨waitingPaymentMsg, some s, [], []⟩) := by
  unfold dispatch
  rw [h]

theorem dispatch_booking_confirmed (env : Env) (uid input raw : String) (s : Session)
    (h : s.step = .booking_confirmed) :
    dispatch env uid input raw s = ⟨alreadyConfirmedMsg, some s, [], []⟩ := by
  unfold dispatch
  rw [h]

/-! ### Preservation of the session invariant -/

theorem sessionInv_zero (t : Session) (h : t.passengers.length = 0) : sessionInv t :=
  ⟨by omega, fun _ => h, fun _ => by omega⟩

theorem sessionInv_mid (t : Session) (h5 : t.passengers.length ≤ 5)
    (hg1 : ¬(t.step = .ask_origin ∨ t.step = .ask_destination ∨ t.step = .ask_date ∨
        t.step = .select_flight)) :
    sessionInv t :=
  ⟨by omega, fun hc => absurd hc hg1, fun _ => h5⟩

theorem sessionInv_late (t : Session) (h6 : t.passengers.length ≤ 6)
    (hg1 : ¬(t.step = .ask_origin ∨ t.step = .ask_destination ∨ t.step = .ask_date ∨
        t.step = .select_flight))
    (hg2 : ¬(t.step = .ask_name ∨ t.step = .ask_age ∨ t.step = .ask_gender ∨
        t.step = .ask_seat ∨ t.step = .add_another_passenger)) :
    sessionInv t :=
  ⟨h6, fun hc => absurd hc hg1, fun hc => absurd hc hg2⟩

theorem freshSession_inv (t : Int) : sessionInv (freshSession t) :=
  sessionInv_zero _ rfl

theorem confirmBookingBody_inv (env : Env) (uid : String) (s : Session)
    (h : sessionInv s) : optInv (confirmBookingBody env uid s).sess := by
  obtain ⟨h6, hz, h5⟩ := h
  unfold confirmBookingBody
  cases hsf : s.selected_flight with
  | none => trivial
  | some f =>
    dsimp only
    split
    · exact ⟨h6, hz, h5⟩
    · split
      · exact ⟨h6, hz, h5⟩
      · split
        · split
          · trivial
          · exact sessionInv_late _ h6 (by rintro (hc | hc | hc | hc) <;> exact Step.noConfusion hc) (by rintro (hc | hc | hc | hc | hc) <;> exact Step.noConfusion hc)
        · exact ⟨h6, hz, h5⟩

theorem dispatch_inv (env : Env) (uid input raw : String) (s : Session)
    (h : sessionInv s) : optInv (dispatch env uid input raw s).sess := by
  obtain ⟨h6, hz, h5⟩ := h
  cases hstep : s.step
  case ask_origin =>
    rw [dispatch_ask_origin env uid input raw s hstep]
    exact sessionInv_zero _ (hz (Or.inl hstep))
  case ask_destination =>
    rw [dispatch_ask_destination env uid input raw s hstep]
    exact sessionInv_zero _ (hz (Or.inr (Or.inl hstep)))
  case ask_date =>
    rw [dispatch_ask_date env uid input raw s hstep]
    have h0 : s.passengers.length = 0 := hz (Or.inr (Or.inr (Or.inl hstep)))
    split
    · exact sessionInv_zero _ h0
    · dsimp only
      split
      · split
        · exact sessionInv_zero _ h0
        · exact sessionInv_zero _ h0
      · exact sessionInv_zero _ h0
  case select_flight =>
    rw [dispatch_select_flight env uid input raw s hstep]
    have h0 : s.passengers.length = 0 := hz (Or.inr (Or.inr (Or.inr hstep)))
    split
    · dsimp only
      split
      · exact sessionInv_zero _ h0
      · exact ⟨h6, hz, h5⟩
    · exact ⟨h6, hz, h5⟩
  case ask_name =>
    rw [dispatch_ask_name env uid input raw s hstep]
    exact sessionInv_mid _ (h5 (Or.inl hstep)) (by rintro (hc | hc | hc | hc) <;> exact Step.noConfusion hc)
  case ask_age =>
    rw [dispatch_ask_age env uid input raw s hstep]
    split
    · exact sessionInv_mid _ (h5 (Or.inr (Or.inl hstep))) (by rintro (hc | hc | hc | hc) <;> exact Step.noConfusion hc)
    · exact ⟨h6, hz, h5⟩
  case ask_gender =>
    rw [dispatch_ask_gender env uid input raw s hstep]
    split
    · exact sessionInv_mid _ (h5 (Or.inr (Or.inr (Or.inl hstep)))) (by rintro (hc | hc | hc | hc) <;> exact Step.noConfusion hc)
    · exact ⟨h6, hz, h5⟩
  case ask_seat =>
    rw [dispatch_ask_seat env uid input raw s hstep]
    have h5s : s.passengers.length ≤ 5 := h5 (Or.inr (Or.inr (Or.inr (Or.inl hstep))))
    dsimp only
    split
    case isTrue hlt =>
      refine sessionInv_mid _ ?_ (by rintro (hc | hc | hc | hc) <;> exact Step.noConfusion hc)
      simp only [List.length_append, List.length_cons, List.length_nil] at hlt ⊢
      omega
    case isFalse hge =>
      refine sessionInv_late _ ?_ (by rintro (hc | hc | hc | hc) <;> exact Step.noConfusion hc) (by rintro (hc | hc | hc | hc | hc) <;> exact Step.noConfusion hc)
      simp only [List.length_append, List.length_cons, List.length_nil]
      omega
  case add_another_passenger =>
    rw [dispatch_add_another env uid input raw s hstep]
    have h5s : s.passengers.length ≤ 5 :=
      h5 (Or.inr (Or.inr (Or.inr (Or.inr hstep))))
    split
    · exact sessionInv_mid _ h5s (by rintro (hc | hc | hc | hc) <;> exact Step.noConfusion hc)
    · split
      · exact sessionInv_late _ h6 (by rintro (hc | hc | hc | hc) <;> exact Step.noConfusion hc) (by rintro (hc | hc | hc | hc | hc) <;> exact Step.noConfusion hc)
      · exact ⟨h6, hz, h5⟩
  case confirm_booking =>
    rw [dispatch_confirm_booking env uid input raw s hstep]
    split
    · exact confirmBookingBody_inv env uid s ⟨h6, hz, h5⟩
    · exact ⟨h6, hz, h5⟩
  case awaiting_payment =>
    rw [dispatch_awaiting_payment env uid input raw s hstep]
    split
    · split
      · exact ⟨h6, hz, h5⟩
      · split
        · trivial
        · exact ⟨h6, hz, h5⟩
    · exact ⟨h6, hz, h5⟩
  case booking_confirmed =>
    rw [dispatch_booking_confirmed env uid input raw s hstep]
    exact ⟨h6, hz, h5⟩

theorem processMessage_inv (env : Env) (uid body : String) (os : Option Session)
    (h : optInv os) : optInv (processMessage env uid os body).session := by
  unfold processMessage
  dsimp only
  split
  · exact freshSession_inv _
  · cases os with
    | none => exact freshSession_inv _
    | some s =>
      dsimp only
      split
      · exact freshSession_inv _
      · exact dispatch_inv env uid _ _ { s with last_interaction := env.now } h

theorem webhook_inv (env : Env) (uid : String) (lastSeen : Option Int) (body : String)
    (os : Option Session) (h : optInv os) :
    optInv (webhook env uid lastSeen os body).session := by
  unfold webhook
  split
  · exact h
  · exact processMessage_inv env uid body os h

theorem reachable_inv (os : Option Session) (h : Reachable os) : optInv os := by
  induction h with
  | init => trivial
  | next env uid lastSeen body hr ih => exact webhook_inv env uid lastSeen body _ ih

theorem reach_fresh : Reachable (some (freshSession envA.now)) := by
  have h := Reachable.next envA "user" none "hi" Reachable.init
  have e : (webhook envA "user" none none "hi").session = some (freshSession envA.now) := by
    decide
  rwa [e] at h

/-! ### Claim C8 -/

/-- Claim C8: a message arriving less than 2 seconds after the last
processed one of the same user is answered with the wait notice and
changes nothing — the session entry (step and every collected field) is
returned unchanged, the recorded last-interaction timestamp keeps its old
value, and no rows are written. -/
theorem C8_debounce_frame (env : Env) (userId : String) (t1 : Int)
    (sess : Option Session) (body : String) (h : env.now - t1 < 2) :
    webhook env userId (some t1) sess body = ⟨waitNotice, sess, some t1, [], []⟩ :=
  webhook_debounced env userId (some t1) sess body h

/-- Witness for C8: at clock 100, a message 1 second after the previous
one is debounced. -/
theorem C8_debounce_frame_witness :
    envA.now - 99 < 2 ∧
    webhook envA "user" (some 99) (some sFull) "paid" =
      ⟨waitNotice, some sFull, some 99, [], []⟩ :=
  ⟨by decide, C8_debounce_frame envA "user" 99 (some sFull) "paid" (by decide)⟩

/-! ### Claim C10 -/

/-- Claim C10: with no recorded prior interaction the debounce default is
5 seconds in the past, so the 2-second guard is false and the first
message is always processed (it reaches `processMessage`, and the
last-interaction timestamp gets recorded — the debounce branch is the
only one that does not record it). -/
theorem C10_first_message_processed (env : Env) (userId : String)
    (sess : Option Session) (body : String) :
    ¬ env.now - ((none : Option Int).getD (env.now - 5)) < 2 ∧
    webhook env userId none sess body = processMessage env userId sess body ∧
    (webhook env userId none sess body).lastSeen = some env.now := by
  have hg : ¬ env.now - ((none : Option Int).getD (env.now - 5)) < 2 := by
    simp only [Option.getD_none]
    omega
  refine ⟨hg, webhook_not_debounced env userId none sess body hg, ?_⟩
  rw [webhook_not_debounced env userId none sess body hg]
  exact processMessage_lastSeen env userId sess body

/-! ### Claim C7 -/

/-- Claim C7: whatever the current step and collected data, a processed
message whose canonical (title-cased) form is one of the greeting
keywords reinitializes the session to `ask_origin` with every field reset
to its empty initial value, and replies with the welcome prompt. -/
theorem C7_greeting_reset (env : Env) (userId : String) (lastSeen : Option Int)
    (sess : Option Session) (body : String)
    (h1 : ¬ env.now - lastSeen.getD (env.now - 5) < 2)
    (h2 : pyTitle (pyStrip body) ∈ greetingKeywords) :
    webhook env userId lastSeen sess body =
      { reply := welcomeMsg,
        session := some { step := .ask_origin, origin := "", destination := "",
                          date := "", flights := [], selected_flight := none,
                          passengers := [],
                          current_passenger := { name := none, age := none,
                                                 gender := none, seat := none },
                          payment_confirmed := false, razorpay_order_id := none,
                          last_interaction := env.now },
        lastSeen := some env.now, bookings := [], passRows := [] } := by
  rw [webhook_not_debounced env userId lastSeen sess body h1]
  exact processMessage_greeting env userId sess body h2

/-- Witness for C7: a mixed-case greeting with surrounding whitespace
resets a fully populated awaiting-payment session. -/
theorem C7_greeting_reset_witness :
    pyTitle (pyStrip " hELLo ") ∈ greetingKeywords ∧
    webhook envA "user" none (some sFull) " hELLo " =
      ⟨welcomeMsg, some (freshSession envA.now), some envA.now, [], []⟩ :=
  ⟨by decide,
   C7_greeting_reset envA "user" none (some sFull) " hELLo " (by decide) (by decide)⟩

/-! ### Claim C2 -/

/-- Claim C2 is false on the code: there is no non-empty validation at
`ask_origin`/`ask_destination`.  At `ask_origin` the empty message is
stored as the origin and the step advances to `ask_destination`. -/
theorem C2_empty_input_advances :
    pyTitle (pyStrip "") = "" ∧
    (webhook envA "user" none (some (freshSession 100)) "").session.map Session.step
        = some Step.ask_destination ∧
    (webhook envA "user" none (some (freshSession 100)) "").session.map Session.origin
        = some "" :=
  ⟨rfl, rfl, rfl⟩

/-- Claim C2 (amended): at `ask_origin` (resp. `ask_destination`) every
processed non-greeting message — the empty string included — is stored
title-cased as the origin (resp. destination) and the step advances to
`ask_destination` (resp. `ask_date`); the handler performs no non-empty
check. -/
theorem C2_any_input_stored (env : Env) (userId : String) (lastSeen : Option Int)
    (body : String) (s : Session)
    (h1 : ¬ env.now - lastSeen.getD (env.now - 5) < 2)
    (h2 : pyTitle (pyStrip body) ∉ greetingKeywords)
    (h3 : ¬ env.now - s.last_interaction > 3600) :
    (s.step = .ask_origin →
      webhook env userId lastSeen (some s) body =
        ⟨askDestinationMsg,
         some { s with
                  origin := pyTitle (pyStrip body)
                  step := .ask_destination
                  last_interaction := env.now },
         some env.now, [], []⟩) ∧
    (s.step = .ask_destination →
      webhook env userId lastSeen (some s) body =
        ⟨askDateMsg,
         some { s with
                  destination := pyTitle (pyStrip body)
                  step := .ask_date
                  last_interaction := env.now },
         some env.now, [], []⟩) := by
  constructor
  · intro hs
    rw [webhook_run env userId lastSeen s body h1 h2 h3,
        dispatch_ask_origin env userId (pyTitle (pyStrip body)) (pyStrip body)
          { s with last_interaction := env.now } hs]
  · intro hs
    rw [webhook_run env userId lastSeen s body h1 h2 h3,
        dispatch_ask_destination env userId (pyTitle (pyStrip body)) (pyStrip body)
          { s with last_interaction := env.now } hs]

/-- Witness for the amended C2: the empty message advances a fresh
session. -/
theorem C2_any_input_stored_witness :
    webhook envA "user" none (some (freshSession 99)) "" =
      ⟨askDestinationMsg,
       some { freshSession 99 with
                origin := pyTitle (pyStrip "")
                step := .ask_destination
                last_interaction := envA.now },
       some envA.now, [], []⟩ :=
  (C2_any_input_stored envA "user" none "" (freshSession 99)
    (by decide) (by decide) (by decide)).1 rfl

/-! ### Claim C1 -/

/-- Claim C1 is contradicted by the code: with a payment-reference id in
the session and the status check returning true, the `awaiting_payment`
handler evaluates `generate_ticket_pdf(booking_reference, ...)`, but the
local `booking_reference` is only ever assigned inside the
`confirm_booking` branch of an earlier request, so the call raises
`UnboundLocalError`; the `except` branch deletes the session and replies
with the generic error message instead of a reply referencing the ticket
PDF, and the stored step is not `booking_confirmed` (there is no stored
session at all). -/
theorem C1_payment_success_crashes :
    check_payment_status envPaid "order_1" = true ∧
    pyLower (pyTitle (pyStrip "paid")) = "paid" ∧
    sFull.step = .awaiting_payment ∧
    sFull.razorpay_order_id = some "order_1" ∧
    webhook envPaid "user" none (some sFull) "paid" =
      ⟨errorMsg, none, some envPaid.now, [], []⟩ :=
  ⟨rfl, rfl, rfl, rfl, rfl⟩

/-! ### Claim C5 -/

/-- Claim C5: at `select_flight`, an input is accepted iff it parses as
an integer `n` with `1 <= n <= count(flights)`; on acceptance the offer
at index `n - 1` becomes the selected flight and the step becomes
`ask_name`; on rejection (unparsable input, or `n` out of range — zero
and negatives included) the reply is the invalid-choice prompt and the
session is unchanged apart from its refreshed timestamp. -/
theorem C5_select_flight (env : Env) (userId : String) (lastSeen : Option Int)
    (body : String) (s : Session)
    (h1 : ¬ env.now - lastSeen.getD (env.now - 5) < 2)
    (h2 : pyTitle (pyStrip body) ∉ greetingKeywords)
    (h3 : ¬ env.now - s.last_interaction > 3600)
    (hs : s.step = .select_flight) :
    (∀ n : Int, pyInt (pyTitle (pyStrip body)) = some n →
      1 ≤ n → n ≤ (s.flights.length : Int) →
      ∃ f, s.flights.get? (n - 1).toNat = some f ∧
        webhook env userId lastSeen (some s) body =
          ⟨askName1Msg,
           some { s with
                    selected_flight := some f
                    step := .ask_name
                    last_interaction := env.now },
           some env.now, [], []⟩) ∧
    ((pyInt (pyTitle (pyStrip body)) = none ∨
        ∃ n : Int, pyInt (pyTitle (pyStrip body)) = some n ∧
          (n < 1 ∨ (s.flights.length : Int) < n)) →
      webhook env userId lastSeen (some s) body =
        ⟨invalidChoiceMsg, some { s with last_interaction := env.now },
         some env.now, [], []⟩) := by
  rw [webhook_run env userId lastSeen s body h1 h2 h3,
      dispatch_select_flight env userId (pyTitle (pyStrip body)) (pyStrip body)
        { s with last_interaction := env.now } hs]
  constructor
  · intro n hn hlo hhi
    have hlt : (n - 1).toNat < s.flights.length := by omega
    refine ⟨s.flights.get ⟨(n - 1).toNat, hlt⟩, (List.get?_eq_get hlt).symm ▸ rfl, ?_⟩
    rw [hn]
    dsimp only
    rw [if_pos ⟨by omega, by omega⟩]
    rw [List.get?_eq_get hlt]
  · intro hrej
    rcases hrej with hnone | ⟨n, hn, hout⟩
    · rw [hnone]
    · rw [hn]
      dsimp only
      rw [if_neg (by omega)]

/-- Witness for C5: with three offers loaded, input `2` selects the
second offer. -/
theorem C5_select_flight_witness :
    pyInt (pyTitle (pyStrip "2")) = some 2 ∧
    ∃ f, sFlights.flights.get? ((2 : Int) - 1).toNat = some f ∧
      webhook envA "user" none (some sFlights) "2" =
        ⟨askName1Msg,
         some { sFlights with
                  selected_flight := some f
                  step := .ask_name
                  last_interaction := envA.now },
         some envA.now, [], []⟩ :=
  ⟨by decide,
   (C5_select_flight envA "user" none "2" sFlights (by decide) (by decide)
      (by decide) rfl).1 2 (by decide) (by decide) (by decide)⟩

/-! ### Claim C9 -/

/-- Claim C9: at `awaiting_payment`, every processed message that does
not lead to a verified captured payment leaves the step at
`awaiting_payment` and `payment_confirmed` untouched: an unrecognized
keyword yields only the waiting reminder; a recognized payment keyword
with a missing order id yields the missing-info reply; a recognized
keyword whose status check returns false yields the not-yet-detected
reply; and a status check whose API call raises counts as false. -/
theorem C9_awaiting_payment_frame (env : Env) (userId : String)
    (lastSeen : Option Int) (body : String) (s : Session)
    (h1 : ¬ env.now - lastSeen.getD (env.now - 5) < 2)
    (h2 : pyTitle (pyStrip body) ∉ greetingKeywords)
    (h3 : ¬ env.now - s.last_interaction > 3600)
    (hs : s.step = .awaiting_payment) :
    (∀ oid, env.razorpayPayments oid = none → check_payment_status env oid = false) ∧
    (¬(pyLower (pyTitle (pyStrip body)) = "paid" ∨
        pyLower (pyTitle (pyStrip body)) = "payment done" ∨
        pyLower (pyTitle (pyStrip body)) = "done") →
      webhook env userId lastSeen (some s) body =
        ⟨waitingPaymentMsg, some { s with last_interaction := env.now },
         some env.now, [], []⟩) ∧
    ((pyLower (pyTitle (pyStrip body)) = "paid" ∨
        pyLower (pyTitle (pyStrip body)) = "payment done" ∨
        pyLower (pyTitle (pyStrip body)) = "done") →
      s.razorpay_order_id = none →
      webhook env userId lastSeen (some s) body =
        ⟨paymentInfoMissingMsg, some { s with last_interaction := env.now },
         some env.now, [], []⟩) ∧
    (∀ oid, (pyLower (pyTitle (pyStrip body)) = "paid" ∨
        pyLower (pyTitle (pyStrip body)) = "payment done" ∨
        pyLower (pyTitle (pyStrip body)) = "done") →
      s.razorpay_order_id = some oid →
      check_payment_status env oid = false →
      webhook env userId lastSeen (some s) body =
        ⟨notDetectedMsg, some { s with last_interaction := env.now },
         some env.now, [], []⟩) ∧
    (¬((pyLower (pyTitle (pyStrip body)) = "paid" ∨
          pyLower (pyTitle (pyStrip body)) = "payment done" ∨
          pyLower (pyTitle (pyStrip body)) = "done") ∧
        ∃ oid, s.razorpay_order_id = some oid ∧ check_payment_status env oid = true) →
      (webhook env userId lastSeen (some s) body).session.map Session.step
          = some Step.awaiting_payment ∧
      (webhook env userId lastSeen (some s) body).session.map Session.payment_confirmed
          = some s.payment_confirmed) := by
  have hcheck : ∀ oid, env.razorpayPayments oid = none →
      check_payment_status env oid = false := by
    intro oid h
    unfold check_payment_status
    rw [h]
    split
    · rfl
    · rfl
  rw [webhook_run env userId lastSeen s body h1 h2 h3,
      dispatch_awaiting_payment env userId (pyTitle (pyStrip body)) (pyStrip body)
        { s with last_interaction := env.now } hs]
  refine ⟨hcheck, ?_, ?_, ?_, ?_⟩
  · intro hk
    rw [if_neg hk]
  · intro hk hnone
    rw [if_pos hk]
    dsimp only
    rw [hnone]
  · intro oid hk hsome hfalse
    rw [if_pos hk]
    dsimp only
    rw [hsome]
    dsimp only
    rw [hfalse]
    rw [if_neg Bool.false_ne_true]
  · intro hnc
    by_cases hk : pyLower (pyTitle (pyStrip body)) = "paid" ∨
        pyLower (pyTitle (pyStrip body)) = "payment done" ∨
        pyLower (pyTitle (pyStrip body)) = "done"
    · rw [if_pos hk]
      dsimp only
      cases hoid : s.razorpay_order_id with
      | none =>
        refine ⟨?_, ?_⟩ <;> simp [hs]
      | some oid =>
        dsimp only
        cases hcp : check_payment_status env oid with
        | false =>
          rw [if_neg Bool.false_ne_true]
          refine ⟨?_, ?_⟩ <;> simp [hs]
        | true =>
          exact absurd ⟨hk, oid, hoid, hcp⟩ hnc
    · rw [if_neg hk]
      refine ⟨?_, ?_⟩ <;> simp [hs]

/-- Witness for C9: a recognized keyword while the only payment of the
order has failed status leaves the session waiting. -/
theorem C9_awaiting_payment_frame_witness :
    check_payment_status envFail "order_1" = false ∧
    webhook envFail "user" none (some sFull) "paid" =
      ⟨notDetectedMsg, some { sFull with last_interaction := envFail.now },
       some envFail.now, [], []⟩ :=
  ⟨by decide,
   (C9_awaiting_payment_frame envFail "user" none "paid" sFull (by decide)
      (by decide) (by decide) rfl).2.2.2.1 "order_1" (by decide) rfl (by decide)⟩

/-! ### Claim C3 -/

/-- Claim C3: at `confirm_booking` on the keyword `confirm`, if
payment-link creation fails in any of the specified ways — the Razorpay
client missing, the creation call raising, or the response missing the
`id` or `short_url` field — the handler replies with a retry-later
message, the step stays `confirm_booking` (the session is unchanged
apart from its refreshed timestamp) and no `flight_bookings` and no
`passengers` row has been inserted. -/
theorem C3_link_failure_no_writes (env : Env) (userId : String)
    (lastSeen : Option Int) (body : String) (s : Session) (f : Flight)
    (h1 : ¬ env.now - lastSeen.getD (env.now - 5) < 2)
    (h2 : pyTitle (pyStrip body) ∉ greetingKeywords)
    (h3 : ¬ env.now - s.last_interaction > 3600)
    (hs : s.step = .confirm_booking)
    (hk : pyLower (pyTitle (pyStrip body)) = "confirm")
    (hf : s.selected_flight = some f) :
    (env.razorpayAvailable = false →
      webhook env userId lastSeen (some s) body =
        ⟨paymentUnavailableMsg, some { s with last_interaction := env.now },
         some env.now, [], []⟩) ∧
    (env.razorpayAvailable = true → env.createPaymentLink = none →
      webhook env userId lastSeen (some s) body =
        ⟨linkFailedMsg, some { s with last_interaction := env.now },
         some env.now, [], []⟩) ∧
    (∀ pl, env.razorpayAvailable = true → env.createPaymentLink = some pl →
      (pl.linkId = none ∨ pl.shortUrl = none) →
      webhook env userId lastSeen (some s) body =
        ⟨linkFailedMsg, some { s with last_interaction := env.now },
         some env.now, [], []⟩) := by
  rw [webhook_run env userId lastSeen s body h1 h2 h3,
      dispatch_confirm_booking env userId (pyTitle (pyStrip body)) (pyStrip body)
        { s with last_interaction := env.now } hs, if_pos hk]
  unfold confirmBookingBody
  dsimp only
  rw [hf]
  dsimp only
  refine ⟨?_, ?_, ?_⟩
  · intro hra
    rw [hra]
    rfl
  · intro hra hcl
    rw [hra, if_neg (by decide)]
    cases hp : s.passengers with
    | nil => rfl
    | cons p0 rest =>
      dsimp only
      cases hn : p0.name with
      | none => rfl
      | some nm => rw [hcl]
  · intro pl hra hcl hmiss
    rw [hra, if_neg (by decide)]
    cases hp : s.passengers with
    | nil => rfl
    | cons p0 rest =>
      dsimp only
      cases hn : p0.name with
      | none => rfl
      | some nm =>
        rw [hcl]
        dsimp only
        obtain ⟨plid, purl⟩ := pl
        cases plid with
        | none => cases purl <;> rfl
        | some lid =>
          cases purl with
          | none => rfl
          | some url =>
            rcases hmiss with hmiss | hmiss <;> exact Option.noConfusion hmiss

/-- Witness for C3: the Razorpay client is not configured, the booking is
not persisted and the user is asked to retry later. -/
theorem C3_link_failure_no_writes_witness :
    envA.razorpayAvailable = false ∧
    webhook envA "user" none (some sConfirm) "CONFIRM" =
      ⟨paymentUnavailableMsg, some { sConfirm with last_interaction := envA.now },
       some envA.now, [], []⟩ :=
  ⟨rfl,
   (C3_link_failure_no_writes envA "user" none "CONFIRM" sConfirm fDemo
      (by decide) (by decide) (by decide) rfl (by decide) rfl).1 rfl⟩

/-! ### Claim C4 -/

/-- Claim C4: `is_valid_departure_date` accepts a string iff it parses as
a calendar date `d` with `today ≤ d ≤ today + 10`; at `ask_date` every
rejected input gets the invalid-date reply whose enumeration is exactly
the 11 dates `today .. today + 10` (one formatted line each), and the
session is unchanged apart from its refreshed timestamp (the step stays
`ask_date`). -/
theorem C4_date_validation :
    (∀ (str : String) (today : Int),
      is_valid_departure_date str today = true ↔
        ∃ d, parseDate str = some d ∧ today ≤ d ∧ d ≤ today + 10) ∧
    (∀ (env : Env) (userId : String) (lastSeen : Option Int) (body : String)
        (s : Session),
      ¬ env.now - lastSeen.getD (env.now - 5) < 2 →
      pyTitle (pyStrip body) ∉ greetingKeywords →
      ¬ env.now - s.last_interaction > 3600 →
      s.step = .ask_date →
      is_valid_departure_date (pyTitle (pyStrip body)) env.today = false →
      webhook env userId lastSeen (some s) body =
        ⟨invalidDateMsg env.today, some { s with last_interaction := env.now },
         some env.now, [], []⟩) ∧
    (∀ today : Int, (allowedDateLines today).length = 11) ∧
    (∀ today d : Int,
      (today ≤ d ∧ d ≤ today + 10) ↔
        d ∈ (List.range 11).map (fun i : Nat => today + (i : Int))) ∧
    (∀ today : Int,
      allowedDateLines today =
        ((List.range 11).map (fun i : Nat => today + (i : Int))).map
          (fun d => "✅ " ++ fmtDate d)) := by
  refine ⟨?_, ?_, ?_, ?_, ?_⟩
  · intro str today
    unfold is_valid_departure_date
    cases hp : parseDate str with
    | none => simp
    | some d => simp [and_assoc]
  · intro env userId lastSeen body s h1 h2 h3 hs hinv
    rw [webhook_run env userId lastSeen s body h1 h2 h3,
        dispatch_ask_date env userId (pyTitle (pyStrip body)) (pyStrip body)
          { s with last_interaction := env.now } hs]
    rw [hinv]
    rfl
  · intro today
    unfold allowedDateLines
    rw [List.length_map, List.length_range]
  · intro today d
    constructor
    · intro h
      exact List.mem_map.mpr
        ⟨(d - today).toNat, List.mem_range.mpr (by omega), by omega⟩
    · intro h
      obtain ⟨i, hi, hd⟩ := List.mem_map.mp h
      have hi11 := List.mem_range.mp hi
      omega
  · intro today
    unfold allowedDateLines
    rw [List.map_map]
    rfl

/-- Witness for C4: a date 20 days out is rejected at `ask_date` with
the enumerated reply and the step stays `ask_date`. -/
theorem C4_date_validation_witness :
    is_valid_departure_date (pyTitle (pyStrip "2026-11-01")) envA.today = false ∧
    webhook envA "user" none (some sDate) "2026-11-01" =
      ⟨invalidDateMsg envA.today, some { sDate with last_interaction := envA.now },
       some envA.now, [], []⟩ :=
  ⟨by decide,
   C4_date_validation.2.1 envA "user" none "2026-11-01" sDate (by decide)
     (by decide) (by decide) rfl (by decide)⟩

/-! ### Claim C6 -/

/-- Claim C6: along every sequence of inbound messages the passengers
list never exceeds 6 entries; and when the append at `ask_seat` brings
the count to 6 (five passengers present before the message), the step is
forced to `confirm_booking` with the max-reached reply — not
`add_another_passenger` — so no further answer can add a seventh. -/
theorem C6_passenger_cap :
    (∀ s : Session, Reachable (some s) → s.passengers.length ≤ 6) ∧
    (∀ (env : Env) (userId : String) (lastSeen : Option Int) (body : String)
        (s : Session),
      ¬ env.now - lastSeen.getD (env.now - 5) < 2 →
      pyTitle (pyStrip body) ∉ greetingKeywords →
      ¬ env.now - s.last_interaction > 3600 →
      s.step = .ask_seat → s.passengers.length = 5 →
      (webhook env userId lastSeen (some s) body).reply = maxPassengersMsg ∧
      (webhook env userId lastSeen (some s) body).session.map Session.step
          = some Step.confirm_booking ∧
      (webhook env userId lastSeen (some s) body).session.map
          (fun t => t.passengers.length) = some 6) := by
  constructor
  · intro s hr
    exact (reachable_inv (some s) hr).1
  · intro env userId lastSeen body s h1 h2 h3 hs h5
    rw [webhook_run env userId lastSeen s body h1 h2 h3,
        dispatch_ask_seat env userId (pyTitle (pyStrip body)) (pyStrip body)
          { s with last_interaction := env.now } hs]
    dsimp only
    rw [if_neg (by simp [h5])]
    refine ⟨rfl, rfl, ?_⟩
    simp [h5]

/-- Witness for C6: the cap holds at the reachable fresh session, and a
sixth passenger seat answer forces `confirm_booking`. -/
theorem C6_passenger_cap_witness :
    (freshSession envA.now).passengers.length ≤ 6 ∧
    (webhook envA "user" none (some sFive) "12a").reply = maxPassengersMsg :=
  ⟨C6_passenger_cap.1 (freshSession envA.now) reach_fresh,
   (C6_passenger_cap.2 envA "user" none "12a" sFive (by decide) (by decide)
      (by decide) rfl (by decide)).1⟩

end FlightBot
